import Mathlib

/-!
Verification of the per-protocol command-encoding and controller-behavior layer
of the `ha-adjustable-bed` integration, restricted to the Okin CB24 and Jensen
bed families (`beds/okin_protocol.py`, `beds/okin_cb24.py`, `beds/jensen.py`).

The Python code is shallowly embedded: packets are lists of byte values
(`Nat`), Python exceptions become an explicit `Option PyError` result
component, and the asynchronous BLE transport is modelled by an oracle
(`Env`) that fixes, per write attempt, the connection state, the outcome of
the GATT write, and the state of the coordinator's cancellation event.
Controller methods become functions from an environment, a write-attempt
counter and a controller state to a trace of emitted events, the advanced
counter, an optional raised error, and the successor state.
-/

namespace AdjustableBed

/-- A wire packet: the byte sequence handed to `write_gatt_char`. -/
abbrev Packet := List Nat

/-- The Python exception classes distinguished by the embedded code. -/
inductive PyError
  | typeError
  | valueError
  | connectionError
  | bleakError
  | cancelledError
  deriving DecidableEq

/-- Result of a single `client.write_gatt_char` attempt, decided by the
environment oracle: success, a raised `BleakError`, a raised
`ConnectionError`, or an `asyncio.CancelledError` delivered at the await. -/
inductive WriteOutcome
  | ok
  | bleak
  | conn
  | cancelled
  deriving DecidableEq

/-- The exception (if any) raised by a write attempt with this outcome. -/
def WriteOutcome.raises : WriteOutcome → Option PyError
  | .ok => none
  | .bleak => some .bleakError
  | .conn => some .connectionError
  | .cancelled => some .cancelledError

/-- Observable transport events: a `write_gatt_char` call carrying its packet,
or an `asyncio.sleep` of the given number of milliseconds. -/
inductive Event
  | write (packet : Packet)
  | sleepMs (ms : Nat)
  deriving DecidableEq

/-- A trace of transport events, in program order. -/
abbrev Trace := List Event

/-- The packets of the write events of a trace, in order. -/
def Trace.writes : Trace → List Packet
  | [] => []
  | .write p :: es => p :: Trace.writes es
  | .sleepMs _ :: es => Trace.writes es

/-- Oracle for one controller session.  `connectedAt s` is the value of
`client is not None and client.is_connected` sampled when the `s`-th write
attempt would be issued; `outcomeAt s` is the outcome of the `s`-th
`write_gatt_char` call; `cancelAt s` is whether the coordinator's shared
cancellation event is set at that point; the pulse fields model the
coordinator's `motor_pulse_count` / `motor_pulse_delay_ms` settings. -/
structure Env where
  connectedAt : Nat → Bool
  outcomeAt : Nat → WriteOutcome
  cancelAt : Nat → Bool
  motorPulseCount : Nat
  motorPulseDelayMs : Nat

/-- The repeat loop shared by the `write_command` implementations: for each
remaining repetition, check the effective cancel event (unless the caller
passed a fresh, never-set `asyncio.Event`), issue the write, and sleep
`delayMs` between consecutive writes.  Returns the event trace, the advanced
write-attempt counter, and the raised error, if any. -/
def writeRepeat (env : Env) (packet : Packet) (checkCancel : Bool) (delayMs : Nat) :
    Nat → Nat → Trace × Nat × Option PyError
  | 0, step => ([], step, none)
  | n + 1, step =>
    if checkCancel && env.cancelAt step then ([], step, none)
    else
      match (env.outcomeAt step).raises with
      | some e => ([.write packet], step + 1, some e)
      | none =>
        if n = 0 then ([.write packet], step + 1, none)
        else
          let r := writeRepeat env packet checkCancel delayMs n (step + 1)
          (.write packet :: .sleepMs delayMs :: r.1, r.2.1, r.2.2)

/-- Association-list model of a Python `dict`: latest binding first. -/
def dictSet {α : Type} (d : List (String × α)) (k : String) (v : α) :
    List (String × α) :=
  (k, v) :: d.filter (fun kv => kv.1 ≠ k)

/-- `dict.get(k)`: `some v` when the key is bound, `none` otherwise. -/
def dictGet {α : Type} (d : List (String × α)) (k : String) : Option α :=
  (d.find? (fun kv => kv.1 = k)).map (·.2)

/-- `dict.pop(k, None)`: remove the binding for `k`, if present. -/
def dictPop {α : Type} (d : List (String × α)) (k : String) :
    List (String × α) :=
  d.filter (fun kv => kv.1 ≠ k)

/-! ## `beds/okin_protocol.py` -/

/-- `okin_protocol.int_to_bytes`: convert an integer to 4 big-endian bytes,
raising `ValueError` outside the unsigned 32-bit range.  (The Python
`TypeError` branch for non-`int` arguments is unreachable here because the
argument is typed `Int`.) -/
def int_to_bytes (value : Int) : Except PyError (List Nat) :=
  if value < 0 ∨ value > 0xFFFFFFFF then
    .error .valueError
  else
    let n := value.toNat
    .ok [(n >>> 24) &&& 0xFF, (n >>> 16) &&& 0xFF, (n >>> 8) &&& 0xFF, n &&& 0xFF]

/-- `okin_protocol.build_okin_command`: the 6-byte `[0x04, 0x02, cmd]` packet. -/
def build_okin_command (command_value : Int) : Except PyError Packet := do
  let b ← int_to_bytes command_value
  return [0x04, 0x02] ++ b

/-- Motor-direction flag constants of `okin_protocol.OkinCommandConstants`
(the subset read by `OkinMotorStateMachine.get_combined_command`); the
nonnegative Python command integers are embedded as `Nat`. -/
def OkinCommandConstants.MOTOR_HEAD_UP : Nat := 0x1

def OkinCommandConstants.MOTOR_HEAD_DOWN : Nat := 0x2

def OkinCommandConstants.MOTOR_FEET_UP : Nat := 0x4

def OkinCommandConstants.MOTOR_FEET_DOWN : Nat := 0x8

def OkinCommandConstants.MOTOR_TILT_UP : Nat := 0x10

def OkinCommandConstants.MOTOR_TILT_DOWN : Nat := 0x20

def OkinCommandConstants.MOTOR_LUMBAR_UP : Nat := 0x40

def OkinCommandConstants.MOTOR_LUMBAR_DOWN : Nat := 0x80

/-- `okin_protocol.OkinMotorStateMachine`: its `_motor_state` dict maps a
motor name to `True` (up), `False` (down) or `None` (stop). -/
structure OkinMotorStateMachine where
  motorState : List (String × Option Bool)
  deriving DecidableEq

/-- `OkinMotorStateMachine.set_motor`. -/
def OkinMotorStateMachine.set_motor (m : OkinMotorStateMachine) (motor : String)
    (direction : Option Bool) : OkinMotorStateMachine :=
  ⟨dictSet m.motorState motor direction⟩

/-- `OkinMotorStateMachine.clear`. -/
def OkinMotorStateMachine.clear (_ : OkinMotorStateMachine) : OkinMotorStateMachine :=
  ⟨[]⟩

/-- `OkinMotorStateMachine.get_combined_command`: OR together the direction
flags of the motors currently being commanded. -/
def OkinMotorStateMachine.get_combined_command (m : OkinMotorStateMachine) : Nat :=
  let command : Nat := 0
  let command :=
    if dictGet m.motorState "head" = some (some true) then
      command ||| OkinCommandConstants.MOTOR_HEAD_UP
    else if dictGet m.motorState "head" = some (some false) then
      command ||| OkinCommandConstants.MOTOR_HEAD_DOWN
    else command
  let command :=
    if dictGet m.motorState "feet" = some (some true) then
      command ||| OkinCommandConstants.MOTOR_FEET_UP
    else if dictGet m.motorState "feet" = some (some false) then
      command ||| OkinCommandConstants.MOTOR_FEET_DOWN
    else command
  let command :=
    if dictGet m.motorState "tilt" = some (some true) then
      command ||| OkinCommandConstants.MOTOR_TILT_UP
    else if dictGet m.motorState "tilt" = some (some false) then
      command ||| OkinCommandConstants.MOTOR_TILT_DOWN
    else command
  let command :=
    if dictGet m.motorState "lumbar" = some (some true) then
      command ||| OkinCommandConstants.MOTOR_LUMBAR_UP
    else if dictGet m.motorState "lumbar" = some (some false) then
      command ||| OkinCommandConstants.MOTOR_LUMBAR_DOWN
    else command
  command

/-! ## `beds/okin_cb24.py`: constants and packet builders -/

/-- `okin_cb24._PRESET_CONTINUOUS_COUNT`. -/
def PRESET_CONTINUOUS_COUNT : Nat := 55

/-- `okin_cb24._PRESET_CONTINUOUS_DELAY_MS`. -/
def PRESET_CONTINUOUS_DELAY_MS : Nat := 300

/-- `okin_cb24._ADAPTIVE_PRESET_RETRY_WINDOW_SECONDS` (12.0 seconds;
monotonic timestamps are embedded as integers, since the code applies only
ordered subtraction and comparison to them). -/
def ADAPTIVE_PRESET_RETRY_WINDOW_SECONDS : Int := 12

/-- `okin_cb24._ADAPTIVE_PRESET_PROMOTION_RETRY_COUNT`. -/
def ADAPTIVE_PRESET_PROMOTION_RETRY_COUNT : Nat := 2

/-- Modelled from the spec: the `OKIN_CB24_VARIANT_*` string constants live in
`const.py`, which is not under `src/`; the legacy-variant membership set of
`okin_cb24._LEGACY_PROTOCOL_VARIANTS` uses the variant names the spec and the
module docstring give (`old`, `cb24`, `cb27`, `cb24_ab`, `cb1221`, `dacheng`). -/
def LEGACY_PROTOCOL_VARIANTS : List String :=
  ["old", "cb24", "cb27", "cb24_ab", "cb1221", "dacheng"]

/-- Modelled from the spec: `okin_cb24._NEW_PROTOCOL_VARIANTS`
(`new`, `cb27new`), with the variant strings taken from the spec because
`const.py` is not under `src/`. -/
def NEW_PROTOCOL_VARIANTS : List String := ["new", "cb27new"]

/-- Modelled from the spec: `okin_cb24._CONTINUOUS_PRESET_VARIANTS` holds only
the `old` compatibility variant. -/
def CONTINUOUS_PRESET_VARIANTS : List String := ["old"]

/-- Preset command constants of `okin_cb24.OkinCB24Commands` (32-bit values). -/
def OkinCB24Commands.PRESET_FLAT : Int := 0x8000000

def OkinCB24Commands.PRESET_ZERO_G : Int := 0x1000

def OkinCB24Commands.PRESET_MEMORY_1 : Int := 0x2000

def OkinCB24Commands.PRESET_MEMORY_2 : Int := 0x4000

def OkinCB24Commands.PRESET_ANTI_SNORE : Int := 0x8000

def OkinCB24Commands.PRESET_MEMORY_3 : Int := 0x10000

/-- Motor command constants of `okin_cb24.OkinCB24Commands`, embedded as
`Nat` (nonnegative bit flags). -/
def OkinCB24Commands.MOTOR_HEAD_UP : Nat := 0x1

def OkinCB24Commands.MOTOR_HEAD_DOWN : Nat := 0x2

def OkinCB24Commands.MOTOR_FEET_UP : Nat := 0x4

def OkinCB24Commands.MOTOR_FEET_DOWN : Nat := 0x8

/-- `okin_cb24._CBNEW_MEMORY_BY_COMMAND`: CB24 integer command to CBNew
memory index. -/
def CBNEW_MEMORY_BY_COMMAND : List (Int × Nat) :=
  [(0x08000000, 9), (0x00001000, 1), (0x00002000, 2), (0x00004000, 3),
   (0x00008000, 4), (0x00010000, 5)]

/-- `okin_cb24.MotorDirection`. -/
inductive MotorDirection
  | up
  | down
  | stop
  deriving DecidableEq, Fintype

/-- `okin_cb24.build_cb24_command`: the 7-byte
`[0x05, 0x02, cmd3, cmd2, cmd1, cmd0, bed_selection]` packet. -/
def build_cb24_command (command_value : Int) (bed_selection : Nat) :
    Except PyError Packet := do
  let b ← int_to_bytes command_value
  return [0x05, 0x02] ++ b ++ [bed_selection]

/-- `okin_cb24.build_cbnew_motor_command` (the nonnegative command integer is
embedded as `Nat`). -/
def build_cbnew_motor_command (command_value : Nat) : Packet :=
  [0x2A, 0x00, 0x00, 0x01, 0x01, 0x04,
   command_value &&& 0xFF,
   (command_value >>> 8) &&& 0xFF,
   (command_value >>> 16) &&& 0xFF,
   (command_value >>> 24) &&& 0xFF]

/-- `okin_cb24.build_cbnew_memory_command`. -/
def build_cbnew_memory_command (memory_index : Nat) : Packet :=
  [0x2A, 0x00, 0x00, 0x01, 0x03, 0x01, memory_index &&& 0xFF]

/-- `okin_cb24.build_cbnew_stop_command`. -/
def build_cbnew_stop_command : Packet :=
  [0xAA, 0x00, 0x00, 0x01, 0x02, 0x00]

/-! ## `beds/okin_cb24.py`: the controller -/

/-- The mutable attributes of `OkinCB24Controller` read or written by the
methods under study (massage/light toggle state is omitted: no claim touches
it). -/
structure OkinCB24State where
  motorState : List (String × MotorDirection)
  bedSelection : Nat
  protocolVariant : String
  isNewProtocol : Bool
  continuousPresets : Bool
  adaptivePresetFallback : Bool
  lastOneShotPresetCommand : Option Int
  lastOneShotPresetMonotonic : Int
  samePresetRetryCount : Nat
  deriving DecidableEq

/-- `OkinCB24Controller.__init__`: derive the protocol flags from the variant,
then fall back to OLD-protocol handling (continuous presets, no adaptive
fallback) for unknown non-new variants. -/
def okinCB24Init (bed_selection : Nat) (protocol_variant : String)
    (adaptive_preset_fallback : Bool) : OkinCB24State :=
  let isNew := NEW_PROTOCOL_VARIANTS.contains protocol_variant
  let continuous := CONTINUOUS_PRESET_VARIANTS.contains protocol_variant && !isNew
  let adaptive := adaptive_preset_fallback && !isNew && !continuous
  let st : OkinCB24State :=
    { motorState := []
      bedSelection := bed_selection
      protocolVariant := protocol_variant
      isNewProtocol := isNew
      continuousPresets := continuous
      adaptivePresetFallback := adaptive
      lastOneShotPresetCommand := none
      lastOneShotPresetMonotonic := 0
      samePresetRetryCount := 0 }
  if !isNew && !LEGACY_PROTOCOL_VARIANTS.contains protocol_variant then
    { st with continuousPresets := true, adaptivePresetFallback := false }
  else st

/-- `OkinCB24Controller.supports_memory_presets`. -/
def OkinCB24State.supports_memory_presets (_ : OkinCB24State) : Bool := true

/-- `OkinCB24Controller.memory_slot_count`. -/
def OkinCB24State.memory_slot_count (_ : OkinCB24State) : Int := 3

/-- Modelled from the spec: `OkinCB24Controller.write_command` delegates to
`BedController._write_gatt_with_retry`, a shared base-class transport helper
that is not under `src/`.  Per the spec contract it writes the packet
`repeat_count` times with `repeat_delay_ms` spacing, checks the effective
cancel event before each write and returns early when set, and raises a
connection-class error when the transport is not connected. -/
def okin_write_command (env : Env) (step : Nat) (command : Packet)
    (repeat_count : Nat) (repeat_delay_ms : Nat) (fresh_cancel_event : Bool) :
    Trace × Nat × Option PyError :=
  if env.connectedAt step = false then ([], step, some .connectionError)
  else writeRepeat env command (!fresh_cancel_event) repeat_delay_ms repeat_count step

/-- `OkinCB24Controller._build_command`: legacy 7-byte CB24 packet with this
controller's bed-selection byte. -/
def OkinCB24State.build_command (st : OkinCB24State) (command_value : Int) :
    Except PyError Packet :=
  build_cb24_command command_value st.bedSelection

/-- `OkinCB24Controller._build_motor_command`. -/
def OkinCB24State.build_motor_command (st : OkinCB24State) (command_value : Nat) :
    Except PyError Packet :=
  if st.isNewProtocol then .ok (build_cbnew_motor_command command_value)
  else st.build_command command_value

/-- `OkinCB24Controller._build_stop_command`. -/
def OkinCB24State.build_stop_command (st : OkinCB24State) : Except PyError Packet :=
  if st.isNewProtocol then .ok build_cbnew_stop_command
  else st.build_command 0

/-- `OkinCB24Controller._build_preset_command`. -/
def OkinCB24State.build_preset_command (st : OkinCB24State) (command_value : Int) :
    Except PyError Packet :=
  if !st.isNewProtocol then st.build_command command_value
  else
    match (CBNEW_MEMORY_BY_COMMAND.find? (fun kv => kv.1 = command_value)).map (·.2) with
    | none => st.build_command command_value
    | some memory_index => .ok (build_cbnew_memory_command memory_index)

/-- `OkinCB24Controller._get_move_command`: sum the direction flags of the
head and feet motors currently being commanded. -/
def OkinCB24State.get_move_command (st : OkinCB24State) : Nat :=
  let command : Nat := 0
  let command :=
    if dictGet st.motorState "head" = some .up then
      command + OkinCB24Commands.MOTOR_HEAD_UP
    else if dictGet st.motorState "head" = some .down then
      command + OkinCB24Commands.MOTOR_HEAD_DOWN
    else command
  let command :=
    if dictGet st.motorState "feet" = some .up then
      command + OkinCB24Commands.MOTOR_FEET_UP
    else if dictGet st.motorState "feet" = some .down then
      command + OkinCB24Commands.MOTOR_FEET_DOWN
    else command
  command

/-- The `try` block of `OkinCB24Controller._move_motor`, together with the
preceding motor-state update: record the requested direction, compute the
combined command, and pulse the movement packet when it is nonzero.  Returns
the updated state alongside the trace, counter and raised error. -/
def okinMovePrimary (env : Env) (step : Nat) (st : OkinCB24State)
    (motor : String) (direction : MotorDirection) :
    OkinCB24State × Trace × Nat × Option PyError :=
  let st :=
    if direction = MotorDirection.stop then
      { st with motorState := dictPop st.motorState motor }
    else
      { st with motorState := dictSet st.motorState motor direction }
  let command := st.get_move_command
  let result : Trace × Nat × Option PyError :=
    if command ≠ 0 then
      match st.build_motor_command command with
      | .error e => ([], step, some e)
      | .ok packet =>
        okin_write_command env step packet env.motorPulseCount env.motorPulseDelayMs false
    else ([], step, none)
  (st, result)

/-- The shielded STOP cleanup shared by `_move_motor` and
`_send_continuous_preset`: attempt the STOP write with a fresh cancel event,
re-raise `asyncio.CancelledError`, and swallow (log only) `BleakError` and
`ConnectionError`.  Returns the cleanup trace, counter, and the error that
escapes the cleanup block, if any. -/
def okinStopCleanup (env : Env) (step : Nat) (st : OkinCB24State) :
    Trace × Nat × Option PyError :=
  match st.build_stop_command with
  | .error e => ([], step, some e)
  | .ok stopPacket =>
    let r := okin_write_command env step stopPacket 1 100 true
    let escaped : Option PyError :=
      match r.2.2 with
      | some .cancelledError => some .cancelledError
      | some .bleakError => none
      | some .connectionError => none
      | e => e
    (r.1, r.2.1, escaped)

/-- `OkinCB24Controller._move_motor`: run the movement phase, then, in a
`finally` block, clear the motor state and send the shielded STOP.  An error
escaping the `finally` block replaces the primary error, Python-style. -/
def okinMoveMotor (env : Env) (step : Nat) (st : OkinCB24State)
    (motor : String) (direction : MotorDirection) :
    Trace × Nat × Option PyError × OkinCB24State :=
  let p := okinMovePrimary env step st motor direction
  let stCleared := { p.1 with motorState := [] }
  let c := okinStopCleanup env p.2.2.1 stCleared
  (p.2.1 ++ c.1, c.2.1, (c.2.2).orElse (fun _ => p.2.2.2), stCleared)

/-- `OkinCB24Controller.move_head_up`. -/
def okinMoveHeadUp (env : Env) (step : Nat) (st : OkinCB24State) :
    Trace × Nat × Option PyError × OkinCB24State :=
  okinMoveMotor env step st "head" .up

/-- `OkinCB24Controller.move_head_down`. -/
def okinMoveHeadDown (env : Env) (step : Nat) (st : OkinCB24State) :
    Trace × Nat × Option PyError × OkinCB24State :=
  okinMoveMotor env step st "head" .down

/-- `OkinCB24Controller.move_back_up` (alias of `move_head_up`). -/
def okinMoveBackUp (env : Env) (step : Nat) (st : OkinCB24State) :
    Trace × Nat × Option PyError × OkinCB24State :=
  okinMoveHeadUp env step st

/-- `OkinCB24Controller.move_back_down` (alias of `move_head_down`). -/
def okinMoveBackDown (env : Env) (step : Nat) (st : OkinCB24State) :
    Trace × Nat × Option PyError × OkinCB24State :=
  okinMoveHeadDown env step st

/-- `OkinCB24Controller.move_legs_up`. -/
def okinMoveLegsUp (env : Env) (step : Nat) (st : OkinCB24State) :
    Trace × Nat × Option PyError × OkinCB24State :=
  okinMoveMotor env step st "feet" .up

/-- `OkinCB24Controller.move_legs_down`. -/
def okinMoveLegsDown (env : Env) (step : Nat) (st : OkinCB24State) :
    Trace × Nat × Option PyError × OkinCB24State :=
  okinMoveMotor env step st "feet" .down

/-- `OkinCB24Controller.move_feet_up` (alias of `move_legs_up`). -/
def okinMoveFeetUp (env : Env) (step : Nat) (st : OkinCB24State) :
    Trace × Nat × Option PyError × OkinCB24State :=
  okinMoveLegsUp env step st

/-- `OkinCB24Controller.move_feet_down` (alias of `move_legs_down`). -/
def okinMoveFeetDown (env : Env) (step : Nat) (st : OkinCB24State) :
    Trace × Nat × Option PyError × OkinCB24State :=
  okinMoveLegsDown env step st

/-- `OkinCB24Controller._should_promote_presets_to_continuous`: adaptive
promotion bookkeeping.  `now` stands for `self._now()` (monotonic seconds).
Returns the decision and the updated state. -/
def shouldPromotePresetsToContinuous (st : OkinCB24State) (command_value : Int)
    (now : Int) : Bool × OkinCB24State :=
  if !st.adaptivePresetFallback then (false, st)
  else if st.lastOneShotPresetCommand = some command_value ∧
      now - st.lastOneShotPresetMonotonic ≤ ADAPTIVE_PRESET_RETRY_WINDOW_SECONDS then
    let retryCount := st.samePresetRetryCount + 1
    if retryCount < ADAPTIVE_PRESET_PROMOTION_RETRY_COUNT then
      (false, { st with samePresetRetryCount := retryCount,
                        lastOneShotPresetMonotonic := now })
    else
      (true, { st with continuousPresets := true,
                       adaptivePresetFallback := false,
                       samePresetRetryCount := 0 })
  else
    (false, { st with samePresetRetryCount := 0,
                      lastOneShotPresetCommand := some command_value,
                      lastOneShotPresetMonotonic := now })

/-- The `try` block of `OkinCB24Controller._send_continuous_preset`: stream
the preset packet `_PRESET_CONTINUOUS_COUNT` times at
`_PRESET_CONTINUOUS_DELAY_MS` intervals. -/
def okinPresetPrimary (env : Env) (step : Nat) (preset_command : Packet) :
    Trace × Nat × Option PyError :=
  okin_write_command env step preset_command PRESET_CONTINUOUS_COUNT
    PRESET_CONTINUOUS_DELAY_MS false

/-- `OkinCB24Controller._send_continuous_preset`: continuous stream followed,
in a `finally` block, by the shielded STOP (same pattern as `_move_motor`). -/
def okinSendContinuousPreset (env : Env) (step : Nat) (st : OkinCB24State)
    (preset_command : Packet) : Trace × Nat × Option PyError :=
  let p := okinPresetPrimary env step preset_command
  let c := okinStopCleanup env p.2.1 st
  (p.1 ++ c.1, c.2.1, (c.2.2).orElse (fun _ => p.2.2))

/-- `OkinCB24Controller._send_preset`: one-shot for the new protocol, then
continuous when configured or when adaptive promotion fires, otherwise
one-shot. -/
def okinSendPreset (env : Env) (step : Nat) (st : OkinCB24State)
    (command_value : Int) (now : Int) :
    Trace × Nat × Option PyError × OkinCB24State :=
  match st.build_preset_command command_value with
  | .error e => ([], step, some e, st)
  | .ok preset_command =>
    if st.isNewProtocol then
      let r := okin_write_command env step preset_command 1 100 false
      (r.1, r.2.1, r.2.2, st)
    else if st.continuousPresets then
      let r := okinSendContinuousPreset env step st preset_command
      (r.1, r.2.1, r.2.2, st)
    else
      let pr := shouldPromotePresetsToContinuous st command_value now
      if pr.1 then
        let r := okinSendContinuousPreset env step pr.2 preset_command
        (r.1, r.2.1, r.2.2, pr.2)
      else
        let r := okin_write_command env step preset_command 1 100 false
        (r.1, r.2.1, r.2.2, pr.2)

/-- `OkinCB24Controller.preset_memory`: look the slot up in the
`{1, 2, 3}`-keyed command dict and send it, or log and no-op for any other
slot number. -/
def okinPresetMemory (env : Env) (step : Nat) (st : OkinCB24State)
    (memory_num : Int) (now : Int) : Trace × Nat × Option PyError × OkinCB24State :=
  let command : Option Int :=
    if memory_num = 1 then some OkinCB24Commands.PRESET_MEMORY_1
    else if memory_num = 2 then some OkinCB24Commands.PRESET_MEMORY_2
    else if memory_num = 3 then some OkinCB24Commands.PRESET_MEMORY_3
    else none
  match command with
  | some c => okinSendPreset env step st c now
  | none => ([], step, none, st)

/-! ## `beds/jensen.py` -/

/-- Command constants of `jensen.JensenCommands` (6-byte packets). -/
def JensenCommands.MOTOR_STOP : Packet := [0x10, 0x00, 0x00, 0x00, 0x00, 0x00]

def JensenCommands.MOTOR_HEAD_UP : Packet := [0x10, 0x01, 0x00, 0x00, 0x00, 0x00]

def JensenCommands.MOTOR_HEAD_DOWN : Packet := [0x10, 0x02, 0x00, 0x00, 0x00, 0x00]

def JensenCommands.MOTOR_FOOT_UP : Packet := [0x10, 0x10, 0x00, 0x00, 0x00, 0x00]

def JensenCommands.MOTOR_FOOT_DOWN : Packet := [0x10, 0x20, 0x00, 0x00, 0x00, 0x00]

def JensenCommands.PRESET_MEMORY_SAVE : Packet := [0x10, 0x40, 0x00, 0x00, 0x00, 0x00]

def JensenCommands.PRESET_MEMORY_RECALL : Packet := [0x10, 0x80, 0x00, 0x00, 0x00, 0x00]

/-- Feature bit constants of `jensen.JensenFeatureFlags` (CONFIG2 bitset). -/
def JensenFeatureFlags.MASSAGE_HEAD : Nat := 0x01

def JensenFeatureFlags.MASSAGE_FOOT : Nat := 0x02

def JensenFeatureFlags.LIGHT : Nat := 0x04

def JensenFeatureFlags.FAN : Nat := 0x10

def JensenFeatureFlags.LIGHT_UNDERBED : Nat := 0x40

/-- The `JensenController` attributes read or written by the methods under
study: the detected feature bitset and the configuration-loaded flag. -/
structure JensenState where
  features : Nat
  configLoaded : Bool
  deriving DecidableEq

/-- `JensenController.__init__`: no features, configuration not loaded. -/
def jensenInit : JensenState := { features := 0, configLoaded := false }

/-- `JensenController.supports_memory_presets`. -/
def JensenState.supports_memory_presets (_ : JensenState) : Bool := true

/-- `JensenController.memory_slot_count`. -/
def JensenState.memory_slot_count (_ : JensenState) : Int := 1

/-- `JensenController.supports_lights`. -/
def JensenState.supports_lights (st : JensenState) : Bool :=
  st.features &&& JensenFeatureFlags.LIGHT ≠ 0

/-- `JensenController.supports_under_bed_lights`. -/
def JensenState.supports_under_bed_lights (st : JensenState) : Bool :=
  st.features &&& JensenFeatureFlags.LIGHT_UNDERBED ≠ 0

/-- `JensenController.has_massage_head`. -/
def JensenState.has_massage_head (st : JensenState) : Bool :=
  st.features &&& JensenFeatureFlags.MASSAGE_HEAD ≠ 0

/-- `JensenController.has_massage_foot`. -/
def JensenState.has_massage_foot (st : JensenState) : Bool :=
  st.features &&& JensenFeatureFlags.MASSAGE_FOOT ≠ 0

/-- `JensenController.has_fan`. -/
def JensenState.has_fan (st : JensenState) : Bool :=
  st.features &&& JensenFeatureFlags.FAN ≠ 0

/-- How the environment resolves one run of the config-query exchange in
`JensenController.query_config`: the 5-second wait timed out, a notification
with the given payload arrived, the event was set but no payload was recorded,
or a `BleakError` was raised at one of the awaited BLE calls. -/
inductive JensenConfigOutcome
  | timeout
  | response (data : List Nat)
  | noData
  | bleakErr
  deriving DecidableEq

/-- `JensenController.query_config`: skip when already loaded or not
connected; on timeout fall back to the
`MASSAGE_HEAD ||| MASSAGE_FOOT ||| LIGHT ||| LIGHT_UNDERBED` default and mark
the configuration loaded; otherwise parse byte 2 of the first notification,
treating short or missing payloads as no features. -/
def jensenQueryConfig (st : JensenState) (connected : Bool)
    (outcome : JensenConfigOutcome) : JensenState :=
  if st.configLoaded then st
  else if !connected then st
  else
    match outcome with
    | .timeout =>
      { st with
          features := JensenFeatureFlags.MASSAGE_HEAD ||| JensenFeatureFlags.MASSAGE_FOOT
            ||| JensenFeatureFlags.LIGHT ||| JensenFeatureFlags.LIGHT_UNDERBED,
          configLoaded := true }
    | .response data =>
      if data.length ≥ 3 then
        { st with features := data.getD 2 0, configLoaded := true }
      else
        { st with features := 0, configLoaded := true }
    | .noData => { st with features := 0, configLoaded := true }
    | .bleakErr => { st with configLoaded := true }

/-- `JensenController.write_command`: raise `ConnectionError` when the client
is missing or disconnected, then run the repeat loop, checking the effective
cancel event (the passed event, or the coordinator event when the caller
passed none) before each write and sleeping `repeat_delay_ms` between
writes. -/
def jensenWriteCommand (env : Env) (step : Nat) (command : Packet)
    (repeat_count : Nat) (repeat_delay_ms : Nat) (fresh_cancel_event : Bool) :
    Trace × Nat × Option PyError :=
  if env.connectedAt step = false then ([], step, some .connectionError)
  else writeRepeat env command (!fresh_cancel_event) repeat_delay_ms repeat_count step

/-- The `try` block of `JensenController._move_with_stop`: the movement
command, pulsed 10 times at 100 ms. -/
def jensenMovePrimary (env : Env) (step : Nat) (command : Packet) :
    Trace × Nat × Option PyError :=
  jensenWriteCommand env step command 10 100 false

/-- `JensenController._move_with_stop`: run the movement phase, then, in a
`finally` block, send `MOTOR_STOP` with a fresh cancel event, swallowing only
`BleakError` from the cleanup write; any other cleanup error escapes and
replaces the primary error, Python-style. -/
def jensenMoveWithStop (env : Env) (step : Nat) (command : Packet) :
    Trace × Nat × Option PyError :=
  let p := jensenMovePrimary env step command
  let c := jensenWriteCommand env p.2.1 JensenCommands.MOTOR_STOP 1 100 true
  let escaped : Option PyError :=
    match c.2.2 with
    | some .bleakError => none
    | e => e
  (p.1 ++ c.1, c.2.1, escaped.orElse (fun _ => p.2.2))

/-- `JensenController.move_head_up`. -/
def jensenMoveHeadUp (env : Env) (step : Nat) : Trace × Nat × Option PyError :=
  jensenMoveWithStop env step JensenCommands.MOTOR_HEAD_UP

/-- `JensenController.move_head_down`. -/
def jensenMoveHeadDown (env : Env) (step : Nat) : Trace × Nat × Option PyError :=
  jensenMoveWithStop env step JensenCommands.MOTOR_HEAD_DOWN

/-- `JensenController.move_back_up` (alias of `move_head_up`). -/
def jensenMoveBackUp (env : Env) (step : Nat) : Trace × Nat × Option PyError :=
  jensenMoveHeadUp env step

/-- `JensenController.move_back_down` (alias of `move_head_down`). -/
def jensenMoveBackDown (env : Env) (step : Nat) : Trace × Nat × Option PyError :=
  jensenMoveHeadDown env step

/-- `JensenController.move_legs_up`. -/
def jensenMoveLegsUp (env : Env) (step : Nat) : Trace × Nat × Option PyError :=
  jensenMoveWithStop env step JensenCommands.MOTOR_FOOT_UP

/-- `JensenController.move_legs_down`. -/
def jensenMoveLegsDown (env : Env) (step : Nat) : Trace × Nat × Option PyError :=
  jensenMoveWithStop env step JensenCommands.MOTOR_FOOT_DOWN

/-- `JensenController.move_feet_up` (alias of `move_legs_up`). -/
def jensenMoveFeetUp (env : Env) (step : Nat) : Trace × Nat × Option PyError :=
  jensenMoveLegsUp env step

/-- `JensenController.move_feet_down` (alias of `move_legs_down`). -/
def jensenMoveFeetDown (env : Env) (step : Nat) : Trace × Nat × Option PyError :=
  jensenMoveLegsDown env step

/-- `JensenController.preset_memory`: slot 1 recalls the single memory
position (100 repeats at 150 ms); any other slot number logs and no-ops. -/
def jensenPresetMemory (env : Env) (step : Nat) (memory_num : Int) :
    Trace × Nat × Option PyError :=
  if memory_num = 1 then
    jensenWriteCommand env step JensenCommands.PRESET_MEMORY_RECALL 100 150 false
  else ([], step, none)

/-! ## Specification-side definitions -/

/-- Big-endian interpretation of a byte list (most significant byte first). -/
def fromBytesBE (bs : List Nat) : Nat :=
  bs.foldl (fun acc b => acc * 256 + b) 0

/-- The STOP packet of an `OkinCB24Controller` in the given state: the CBNew
stop packet for new-protocol profiles, the legacy all-zero command packet
otherwise. -/
def okinStopPacket (st : OkinCB24State) : Packet :=
  if st.isNewProtocol then build_cbnew_stop_command
  else [0x05, 0x02, 0x00, 0x00, 0x00, 0x00, st.bedSelection]

/-- The error escaping the Okin shielded-STOP cleanup block, as a function of
the cleanup write's outcome: only cancellation escapes. -/
def okinCleanupEscape : WriteOutcome → Option PyError
  | .cancelled => some .cancelledError
  | _ => none

/-- The direction recorded for a motor in an `OkinMotorStateMachine`, seen
through `dict.get`: `some true` is up, `some false` is down, anything else
(missing key, or an explicit `None`) is inactive. -/
def okinActiveDirection (m : OkinMotorStateMachine) (motor : String) : Option Bool :=
  match dictGet m.motorState motor with
  | some (some b) => some b
  | _ => none

/-- The per-motor direction flag constant of the shared Okin protocol. -/
def okinDirectionFlag (motor : String) (direction : Option Bool) : Nat :=
  match motor, direction with
  | "head", some true => OkinCommandConstants.MOTOR_HEAD_UP
  | "head", some false => OkinCommandConstants.MOTOR_HEAD_DOWN
  | "feet", some true => OkinCommandConstants.MOTOR_FEET_UP
  | "feet", some false => OkinCommandConstants.MOTOR_FEET_DOWN
  | "tilt", some true => OkinCommandConstants.MOTOR_TILT_UP
  | "tilt", some false => OkinCommandConstants.MOTOR_TILT_DOWN
  | "lumbar", some true => OkinCommandConstants.MOTOR_LUMBAR_UP
  | "lumbar", some false => OkinCommandConstants.MOTOR_LUMBAR_DOWN
  | _, _ => 0

/-- Specification form of the combined command: the bitwise OR of the
direction flag constants of the active motors. -/
def okinCombinedSpec (m : OkinMotorStateMachine) : Nat :=
  okinDirectionFlag "head" (okinActiveDirection m "head") |||
  okinDirectionFlag "feet" (okinActiveDirection m "feet") |||
  okinDirectionFlag "tilt" (okinActiveDirection m "tilt") |||
  okinDirectionFlag "lumbar" (okinActiveDirection m "lumbar")

/-- The per-motor direction flag constant of the CB24 controller. -/
def cb24DirectionFlag (motor : String) (direction : Option MotorDirection) : Nat :=
  match motor, direction with
  | "head", some .up => OkinCB24Commands.MOTOR_HEAD_UP
  | "head", some .down => OkinCB24Commands.MOTOR_HEAD_DOWN
  | "feet", some .up => OkinCB24Commands.MOTOR_FEET_UP
  | "feet", some .down => OkinCB24Commands.MOTOR_FEET_DOWN
  | _, _ => 0

/-- Specification form of `_get_move_command`: the bitwise OR of the active
head and feet direction flags. -/
def cb24CombinedSpec (st : OkinCB24State) : Nat :=
  cb24DirectionFlag "head" (dictGet st.motorState "head") |||
  cb24DirectionFlag "feet" (dictGet st.motorState "feet")

/-- A benign session: always connected, every write succeeds, the shared
cancellation event is never set, 5 motor pulses at 100 ms. -/
def env0 : Env :=
  { connectedAt := fun _ => true
    outcomeAt := fun _ => .ok
    cancelAt := fun _ => false
    motorPulseCount := 5
    motorPulseDelayMs := 100 }

/-- A session whose BLE connection drops after the 10th write attempt (every
attempted write still succeeds). -/
def envDrop10 : Env :=
  { connectedAt := fun s => decide (s < 10)
    outcomeAt := fun _ => .ok
    cancelAt := fun _ => false
    motorPulseCount := 1
    motorPulseDelayMs := 100 }

/-- A session in which the coordinator cancellation event becomes set from
the third write attempt on. -/
def envCancelFrom2 : Env :=
  { connectedAt := fun _ => true
    outcomeAt := fun _ => .ok
    cancelAt := fun s => decide (2 ≤ s)
    motorPulseCount := 5
    motorPulseDelayMs := 100 }

/-! ## Helper lemmas -/

@[simp]
lemma Trace.writes_nil : Trace.writes [] = [] := rfl

@[simp]
lemma Trace.writes_write_cons (p : Packet) (es : Trace) :
    Trace.writes (Event.write p :: es) = p :: Trace.writes es := rfl

@[simp]
lemma Trace.writes_sleep_cons (d : Nat) (es : Trace) :
    Trace.writes (Event.sleepMs d :: es) = Trace.writes es := rfl

@[simp]
lemma Trace.writes_append (t₁ t₂ : Trace) :
    Trace.writes (t₁ ++ t₂) = Trace.writes t₁ ++ Trace.writes t₂ := by
  induction t₁ with
  | nil => rfl
  | cons e es ih => cases e <;> simp [ih]

/-- A single repetition with a fresh (never-set) cancel event: one write
attempt, raising whatever the outcome dictates. -/
lemma writeRepeat_one (env : Env) (p : Packet) (d step : Nat) :
    writeRepeat env p false d 1 step =
      ([.write p], step + 1, (env.outcomeAt step).raises) := by
  cases h : env.outcomeAt step <;>
    simp [writeRepeat, WriteOutcome.raises, h]

/-- With every outcome successful and the cancel event never set, the repeat
loop emits exactly `n` writes separated by sleeps and raises nothing. -/
lemma writeRepeat_ok (env : Env) (p : Packet) (c : Bool) (d : Nat)
    (hOK : ∀ s, env.outcomeAt s = .ok) (hC : ∀ s, env.cancelAt s = false) :
    ∀ (n step : Nat),
      writeRepeat env p c d n step =
        (List.intersperse (Event.sleepMs d) (List.replicate n (Event.write p)),
         step + n, none) := by
  intro n
  induction n with
  | zero => intro step; simp [writeRepeat]
  | succ m ih =>
    intro step
    rw [writeRepeat]
    rw [hC step, hOK step]
    cases m with
    | zero => simp [WriteOutcome.raises]
    | succ k =>
      simp only [WriteOutcome.raises, Bool.and_false]
      rw [if_neg (by simp)]
      simp only [Nat.succ_ne_zero, if_false, ih (step + 1), Prod.mk.injEq, and_true]
      refine ⟨?_, ?_⟩
      · simp [List.replicate_succ, List.intersperse]
      · omega

/-- The writes of `n` write events interleaved with sleeps. -/
lemma writes_intersperse_replicate (d : Nat) (p : Packet) :
    ∀ n, Trace.writes (List.intersperse (Event.sleepMs d) (List.replicate n (Event.write p))) =
      List.replicate n p := by
  intro n
  induction n with
  | zero => rfl
  | succ m ih =>
    cases m with
    | zero => rfl
    | succ k =>
      simp only [List.replicate_succ, List.intersperse] at ih ⊢
      simpa using ih

/-- With every outcome successful and the coordinator cancel event set from
absolute step `cOn` on, the loop performs `min n (cOn - step)` writes and
returns early without raising. -/
lemma writeRepeat_cancelFrom (env : Env) (p : Packet) (d cOn : Nat)
    (hOK : ∀ s, env.outcomeAt s = .ok)
    (hC : ∀ s, env.cancelAt s = decide (cOn ≤ s)) :
    ∀ (n step : Nat),
      Trace.writes (writeRepeat env p true d n step).1 =
        List.replicate (min n (cOn - step)) p ∧
      (writeRepeat env p true d n step).2.2 = none := by
  intro n
  induction n with
  | zero => intro step; simp [writeRepeat]
  | succ m ih =>
    intro step
    rw [writeRepeat]
    rw [hC step, hOK step]
    by_cases hle : cOn ≤ step
    · rw [if_pos (by simp [hle])]
      have : cOn - step = 0 := by omega
      simp [this]
    · rw [if_neg (by simp [hle])]
      simp only [WriteOutcome.raises]
      cases m with
      | zero =>
        have : min 1 (cOn - step) = 1 := by omega
        simp [this]
      | succ k =>
        simp only [Nat.succ_ne_zero, if_false]
        have hrec := ih (step + 1)
        have hcount : min (k + 1 + 1) (cOn - step) = min (k + 1) (cOn - (step + 1)) + 1 := by
          omega
        refine ⟨?_, hrec.2⟩
        simp only [Trace.writes_write_cons, Trace.writes_sleep_cons, hrec.1, hcount,
          List.replicate_succ]

/-- `int_to_bytes` only succeeds with a 4-byte list. -/
lemma int_to_bytes_ok_length (v : Int) (bs : List Nat)
    (h : int_to_bytes v = .ok bs) : bs.length = 4 := by
  unfold int_to_bytes at h
  by_cases hr : v < 0 ∨ v > 0xFFFFFFFF
  · rw [if_pos hr] at h; exact absurd h (by simp)
  · rw [if_neg hr] at h
    cases h
    rfl

/-- The STOP packet builder always succeeds, with `okinStopPacket`. -/
lemma build_stop_command_eq (st : OkinCB24State) :
    st.build_stop_command = .ok (okinStopPacket st) := by
  cases hb : st.isNewProtocol <;>
    simp [OkinCB24State.build_stop_command, okinStopPacket, hb,
      OkinCB24State.build_command, build_cb24_command, int_to_bytes]

/-- The state component of the movement phase: only the motor-state dict is
updated. -/
lemma okinMovePrimary_fst (env : Env) (step : Nat) (st : OkinCB24State)
    (motor : String) (direction : MotorDirection) :
    (okinMovePrimary env step st motor direction).1 =
      (if direction = MotorDirection.stop then
        { st with motorState := dictPop st.motorState motor }
      else { st with motorState := dictSet st.motorState motor direction }) := rfl

/-- `okinStopPacket` ignores the motor-state dict. -/
lemma okinStopPacket_motorState (st : OkinCB24State)
    (x : List (String × MotorDirection)) :
    okinStopPacket { st with motorState := x } = okinStopPacket st := rfl

/-- When the transport is connected at the cleanup step, the shielded STOP
cleanup is exactly one STOP write attempt, and only cancellation escapes. -/
lemma okinStopCleanup_eq (env : Env) (s : Nat) (st : OkinCB24State)
    (h : env.connectedAt s = true) :
    okinStopCleanup env s st =
      ([.write (okinStopPacket st)], s + 1, okinCleanupEscape (env.outcomeAt s)) := by
  unfold okinStopCleanup
  rw [build_stop_command_eq]
  unfold okin_write_command
  cases ho : env.outcomeAt s <;>
    simp [h, writeRepeat_one, ho, WriteOutcome.raises, okinCleanupEscape]

/-- The error escaping the Jensen STOP cleanup block, as a function of the
cleanup write's outcome: only `BleakError` is swallowed. -/
def jensenCleanupEscape : WriteOutcome → Option PyError
  | .ok => none
  | .bleak => none
  | .conn => some .connectionError
  | .cancelled => some .cancelledError

/-- The movement phase never changes anything but the motor-state dict, so
the STOP packet it leads to is the state's own. -/
lemma okinStopPacket_movePrimary (env : Env) (step : Nat) (st : OkinCB24State)
    (motor : String) (direction : MotorDirection) :
    okinStopPacket (okinMovePrimary env step st motor direction).1 = okinStopPacket st := by
  rw [okinMovePrimary_fst]
  split <;> rw [okinStopPacket_motorState]

/-- Full evaluation of `_move_motor` when the transport is connected at the
cleanup step: the primary trace followed by one STOP write attempt, with the
cleanup error filtered through `okinCleanupEscape`. -/
lemma okinMoveMotor_eq (env : Env) (step : Nat) (st : OkinCB24State)
    (motor : String) (direction : MotorDirection)
    (h : env.connectedAt (okinMovePrimary env step st motor direction).2.2.1 = true) :
    okinMoveMotor env step st motor direction =
      ((okinMovePrimary env step st motor direction).2.1 ++ [.write (okinStopPacket st)],
       (okinMovePrimary env step st motor direction).2.2.1 + 1,
       (okinCleanupEscape (env.outcomeAt (okinMovePrimary env step st motor direction).2.2.1)).orElse
         (fun _ => (okinMovePrimary env step st motor direction).2.2.2),
       { (okinMovePrimary env step st motor direction).1 with motorState := [] }) := by
  simp only [okinMoveMotor]
  rw [okinStopCleanup_eq _ _ _ h, okinStopPacket_motorState, okinStopPacket_movePrimary]

/-- Full evaluation of `_send_continuous_preset` when the transport is
connected at the cleanup step. -/
lemma okinSendContinuousPreset_eq (env : Env) (step : Nat) (st : OkinCB24State)
    (pk : Packet)
    (h : env.connectedAt (okinPresetPrimary env step pk).2.1 = true) :
    okinSendContinuousPreset env step st pk =
      ((okinPresetPrimary env step pk).1 ++ [.write (okinStopPacket st)],
       (okinPresetPrimary env step pk).2.1 + 1,
       (okinCleanupEscape (env.outcomeAt (okinPresetPrimary env step pk).2.1)).orElse
         (fun _ => (okinPresetPrimary env step pk).2.2)) := by
  simp only [okinSendContinuousPreset]
  rw [okinStopCleanup_eq _ _ _ h]

/-- Full evaluation of `_move_with_stop` when the transport is connected at
the cleanup step: the primary trace followed by one STOP write attempt, with
the cleanup error filtered through `jensenCleanupEscape`. -/
lemma jensenMoveWithStop_eq (env : Env) (step : Nat) (cmd : Packet)
    (h : env.connectedAt (jensenMovePrimary env step cmd).2.1 = true) :
    jensenMoveWithStop env step cmd =
      ((jensenMovePrimary env step cmd).1 ++ [.write JensenCommands.MOTOR_STOP],
       (jensenMovePrimary env step cmd).2.1 + 1,
       (jensenCleanupEscape (env.outcomeAt (jensenMovePrimary env step cmd).2.1)).orElse
         (fun _ => (jensenMovePrimary env step cmd).2.2)) := by
  simp only [jensenMoveWithStop]
  cases ho : env.outcomeAt (jensenMovePrimary env step cmd).2.1 <;>
    simp [jensenWriteCommand, h, writeRepeat_one, ho, WriteOutcome.raises,
      jensenCleanupEscape]

/-- A benign continuous preset: 55 writes at 300 ms, one STOP, no error. -/
lemma okinSendContinuousPreset_ok (env : Env) (step : Nat) (st : OkinCB24State)
    (pk : Packet) (hconn : ∀ s, env.connectedAt s = true)
    (hOK : ∀ s, env.outcomeAt s = .ok) (hC : ∀ s, env.cancelAt s = false) :
    Trace.writes (okinSendContinuousPreset env step st pk).1 =
      List.replicate PRESET_CONTINUOUS_COUNT pk ++ [okinStopPacket st] ∧
    (okinSendContinuousPreset env step st pk).2.2 = none := by
  rw [okinSendContinuousPreset_eq env step st pk (hconn _)]
  have hp : okinPresetPrimary env step pk =
      (List.intersperse (Event.sleepMs PRESET_CONTINUOUS_DELAY_MS)
        (List.replicate PRESET_CONTINUOUS_COUNT (Event.write pk)),
       step + PRESET_CONTINUOUS_COUNT, none) := by
    simp only [okinPresetPrimary, okin_write_command, hconn]
    simp [writeRepeat_ok env pk true PRESET_CONTINUOUS_DELAY_MS hOK hC]
  rw [hp]
  refine ⟨?_, ?_⟩
  · simp [writes_intersperse_replicate]
  · simp [hOK, okinCleanupEscape]

/-- Packing a shifted value into a byte equals the div-mod presentation. -/
lemma shift_and_byte (x k : Nat) : (x >>> k) &&& 0xFF = x / 2 ^ k % 256 := by
  rw [Nat.shiftRight_eq_div_pow]
  exact Nat.and_pow_two_sub_one_eq_mod _ 8

/-- Case-complete form of `get_combined_command` against the OR-of-flags
specification, quantified over the four dict lookups. -/
lemma combined_command_spec_aux :
    ∀ o₁ o₂ o₃ o₄ : Option (Option Bool),
      (let command : Nat := 0
       let command :=
         if o₁ = some (some true) then command ||| OkinCommandConstants.MOTOR_HEAD_UP
         else if o₁ = some (some false) then command ||| OkinCommandConstants.MOTOR_HEAD_DOWN
         else command
       let command :=
         if o₂ = some (some true) then command ||| OkinCommandConstants.MOTOR_FEET_UP
         else if o₂ = some (some false) then command ||| OkinCommandConstants.MOTOR_FEET_DOWN
         else command
       let command :=
         if o₃ = some (some true) then command ||| OkinCommandConstants.MOTOR_TILT_UP
         else if o₃ = some (some false) then command ||| OkinCommandConstants.MOTOR_TILT_DOWN
         else command
       let command :=
         if o₄ = some (some true) then command ||| OkinCommandConstants.MOTOR_LUMBAR_UP
         else if o₄ = some (some false) then command ||| OkinCommandConstants.MOTOR_LUMBAR_DOWN
         else command
       command) =
      (okinDirectionFlag "head" (match o₁ with | some (some b) => some b | _ => none) |||
       okinDirectionFlag "feet" (match o₂ with | some (some b) => some b | _ => none) |||
       okinDirectionFlag "tilt" (match o₃ with | some (some b) => some b | _ => none) |||
       okinDirectionFlag "lumbar" (match o₄ with | some (some b) => some b | _ => none)) := by
  decide

/-- Case-complete form of `_get_move_command` against the OR-of-flags
specification, quantified over the two dict lookups. -/
lemma move_command_spec_aux :
    ∀ o₁ o₂ : Option MotorDirection,
      (let command : Nat := 0
       let command :=
         if o₁ = some MotorDirection.up then command + OkinCB24Commands.MOTOR_HEAD_UP
         else if o₁ = some MotorDirection.down then command + OkinCB24Commands.MOTOR_HEAD_DOWN
         else command
       let command :=
         if o₂ = some MotorDirection.up then command + OkinCB24Commands.MOTOR_FEET_UP
         else if o₂ = some MotorDirection.down then command + OkinCB24Commands.MOTOR_FEET_DOWN
         else command
       command) =
      (cb24DirectionFlag "head" o₁ ||| cb24DirectionFlag "feet" o₂) := by
  decide

/-! ## Claims -/

/-- C3: for every `0 ≤ value ≤ 0xFFFFFFFF`, `int_to_bytes` returns the four
big-endian bytes of the value; for every value outside that range it raises
`ValueError` (never clamping), and `build_okin_command` / `build_cb24_command`
therefore raise `ValueError` at encode time for out-of-range values. -/
theorem c3_int_to_bytes_big_endian_and_range (v : Int) :
    (0 ≤ v → v ≤ 0xFFFFFFFF →
      ∃ bs : List Nat,
        int_to_bytes v = .ok bs ∧ bs.length = 4 ∧ (∀ b ∈ bs, b < 256) ∧
        fromBytesBE bs = v.toNat ∧
        build_okin_command v = .ok ([0x04, 0x02] ++ bs) ∧
        ∀ sel : Nat, build_cb24_command v sel = .ok ([0x05, 0x02] ++ bs ++ [sel])) ∧
    (v < 0 ∨ 0xFFFFFFFF < v →
      int_to_bytes v = .error .valueError ∧
      build_okin_command v = .error .valueError ∧
      ∀ sel : Nat, build_cb24_command v sel = .error .valueError) := by
  constructor
  · intro h0 h1
    have hn : ¬(v < 0 ∨ v > (0xFFFFFFFF : Int)) := by
      rintro (h | h) <;> omega
    have hok : int_to_bytes v =
        .ok [(v.toNat >>> 24) &&& 0xFF, (v.toNat >>> 16) &&& 0xFF,
             (v.toNat >>> 8) &&& 0xFF, v.toNat &&& 0xFF] := by
      unfold int_to_bytes
      rw [if_neg hn]
    have e0 : v.toNat &&& 0xFF = v.toNat % 256 :=
      Nat.and_pow_two_sub_one_eq_mod _ 8
    have hlt : v.toNat < 4294967296 := by omega
    have q24 : (2 : Nat) ^ 24 = 16777216 := by norm_num
    have q16 : (2 : Nat) ^ 16 = 65536 := by norm_num
    have q8 : (2 : Nat) ^ 8 = 256 := by norm_num
    refine ⟨_, hok, rfl, ?_, ?_, ?_, ?_⟩
    · intro b hb
      simp only [List.mem_cons, List.not_mem_nil, or_false] at hb
      rcases hb with hb | hb | hb | hb <;> subst hb <;>
        simp only [shift_and_byte, e0] <;>
        exact Nat.mod_lt _ (by norm_num)
    · simp only [fromBytesBE, List.foldl_cons, List.foldl_nil, shift_and_byte, e0,
        q24, q16, q8]
      omega
    · unfold build_okin_command
      rw [hok]
      rfl
    · intro sel
      unfold build_cb24_command
      rw [hok]
      rfl
  · intro h
    have he : int_to_bytes v = .error .valueError := by
      unfold int_to_bytes
      rw [if_pos (by rcases h with h | h; exact Or.inl h; exact Or.inr h)]
    refine ⟨he, ?_, ?_⟩
    · unfold build_okin_command
      rw [he]
      rfl
    · intro sel
      unfold build_cb24_command
      rw [he]
      rfl

/-- C3 witness: a value inside the range and one outside it. -/
theorem c3_witness :
    (∃ bs : List Nat,
      int_to_bytes 0x12345678 = .ok bs ∧ bs.length = 4 ∧ (∀ b ∈ bs, b < 256) ∧
      fromBytesBE bs = (0x12345678 : Int).toNat ∧
      build_okin_command 0x12345678 = .ok ([0x04, 0x02] ++ bs) ∧
      ∀ sel : Nat, build_cb24_command 0x12345678 sel = .ok ([0x05, 0x02] ++ bs ++ [sel])) ∧
    (int_to_bytes (-1) = .error .valueError ∧
     build_okin_command (-1) = .error .valueError ∧
     ∀ sel : Nat, build_cb24_command (-1) sel = .error .valueError) :=
  ⟨(c3_int_to_bytes_big_endian_and_range 0x12345678).1 (by norm_num) (by norm_num),
   (c3_int_to_bytes_big_endian_and_range (-1)).2 (Or.inl (by norm_num))⟩

/-- C4: with bed selection `0x00`, `_build_command` of `PRESET_FLAT`
(`0x8000000`) is exactly `[0x05, 0x02, 0x08, 0x00, 0x00, 0x00, 0x00]`, and in
general `_build_command v` is the 7-byte
`[0x05, 0x02] ++ big-endian-4(v) ++ [bed_selection]` packet. -/
theorem c4_build_command_packet_shape :
    (okinCB24Init 0x00 "old" false).build_command OkinCB24Commands.PRESET_FLAT =
      .ok [0x05, 0x02, 0x08, 0x00, 0x00, 0x00, 0x00] ∧
    ∀ (st : OkinCB24State) (v : Int) (bs : List Nat),
      int_to_bytes v = .ok bs →
      st.build_command v = .ok ([0x05, 0x02] ++ bs ++ [st.bedSelection]) ∧
      ([0x05, 0x02] ++ bs ++ [st.bedSelection]).length = 7 := by
  constructor
  · rfl
  · intro st v bs h
    constructor
    · unfold OkinCB24State.build_command build_cb24_command
      rw [h]
      rfl
    · have h4 := int_to_bytes_ok_length v bs h
      simp [h4]

/-- C4 witness: the flat preset on the default bed selection. -/
theorem c4_witness :
    int_to_bytes 0x8000000 = .ok [0x08, 0x00, 0x00, 0x00] ∧
    ((okinCB24Init 0x00 "old" false).build_command 0x8000000 =
        .ok ([0x05, 0x02] ++ [0x08, 0x00, 0x00, 0x00] ++ [0x00]) ∧
      ([0x05, 0x02] ++ [0x08, 0x00, 0x00, 0x00] ++ [(0x00 : Nat)]).length = 7) :=
  ⟨rfl, (c4_build_command_packet_shape.2 (okinCB24Init 0x00 "old" false)
    0x8000000 [0x08, 0x00, 0x00, 0x00] rfl)⟩

/-- C7: `get_combined_command` (and the CB24 `_get_move_command`) equals the
bitwise OR of the direction flag constants of the active motors — `0` when no
motor is active — and `_move_motor` always leaves the motor-state mapping
empty, whether it completes normally or raises. -/
theorem c7_combined_command_or_and_state_cleared :
    (∀ m : OkinMotorStateMachine, m.get_combined_command = okinCombinedSpec m) ∧
    (∀ m : OkinMotorStateMachine,
      (∀ k, okinActiveDirection m k = none) → m.get_combined_command = 0) ∧
    (∀ st : OkinCB24State, st.get_move_command = cb24CombinedSpec st) ∧
    (∀ (env : Env) (step : Nat) (st : OkinCB24State) (motor : String)
      (dir : MotorDirection),
      ((okinMoveMotor env step st motor dir).2.2.2).motorState = []) := by
  refine ⟨fun m => ?_, fun m h => ?_, fun st => ?_, fun env step st motor dir => rfl⟩
  · exact combined_command_spec_aux (dictGet m.motorState "head")
      (dictGet m.motorState "feet") (dictGet m.motorState "tilt")
      (dictGet m.motorState "lumbar")
  · have e1 : m.get_combined_command = okinCombinedSpec m :=
      combined_command_spec_aux (dictGet m.motorState "head")
        (dictGet m.motorState "feet") (dictGet m.motorState "tilt")
        (dictGet m.motorState "lumbar")
    rw [e1]
    simp [okinCombinedSpec, h, okinDirectionFlag]
  · exact move_command_spec_aux (dictGet st.motorState "head")
      (dictGet st.motorState "feet")

/-- C8 counterexample: after the config-query timeout fallback, `has_fan` is
`False` — the fallback mask does not include the FAN bit. -/
theorem c8_counterexample :
    (jensenQueryConfig jensenInit true .timeout).has_fan = false := rfl

/-- C8 (amended): on timeout, `query_config` falls back to the
`MASSAGE_HEAD | MASSAGE_FOOT | LIGHT | LIGHT_UNDERBED` default — so
`supports_lights`, `supports_under_bed_lights`, `has_massage_head` and
`has_massage_foot` report true while `has_fan` remains false — and the
configuration is marked loaded, making every later `query_config` a no-op. -/
theorem c8_timeout_fallback (st : JensenState) (h : st.configLoaded = false) :
    (jensenQueryConfig st true .timeout).supports_lights = true ∧
    (jensenQueryConfig st true .timeout).supports_under_bed_lights = true ∧
    (jensenQueryConfig st true .timeout).has_massage_head = true ∧
    (jensenQueryConfig st true .timeout).has_massage_foot = true ∧
    (jensenQueryConfig st true .timeout).has_fan = false ∧
    (jensenQueryConfig st true .timeout).configLoaded = true ∧
    ∀ (c : Bool) (o : JensenConfigOutcome),
      jensenQueryConfig (jensenQueryConfig st true .timeout) c o =
        jensenQueryConfig st true .timeout := by
  obtain ⟨f, c⟩ := st
  simp only [JensenState.configLoaded] at h
  subst h
  have e : jensenQueryConfig ⟨f, false⟩ true .timeout = ⟨0x47, true⟩ := rfl
  rw [e]
  exact ⟨rfl, rfl, rfl, rfl, rfl, rfl, fun c o => rfl⟩

/-- C8 witness: the fallback behavior from a fresh controller. -/
theorem c8_witness :
    jensenInit.configLoaded = false ∧
    ((jensenQueryConfig jensenInit true .timeout).supports_lights = true ∧
     (jensenQueryConfig jensenInit true .timeout).supports_under_bed_lights = true ∧
     (jensenQueryConfig jensenInit true .timeout).has_massage_head = true ∧
     (jensenQueryConfig jensenInit true .timeout).has_massage_foot = true ∧
     (jensenQueryConfig jensenInit true .timeout).has_fan = false ∧
     (jensenQueryConfig jensenInit true .timeout).configLoaded = true ∧
     ∀ (c : Bool) (o : JensenConfigOutcome),
       jensenQueryConfig (jensenQueryConfig jensenInit true .timeout) c o =
         jensenQueryConfig jensenInit true .timeout) :=
  ⟨rfl, c8_timeout_fallback jensenInit rfl⟩

/-- C9: both controllers report `supports_memory_presets` with a positive
`memory_slot_count`, and `preset_memory` with a slot outside
`1..memory_slot_count` performs no write and raises no error. -/
theorem c9_memory_presets_contract :
    (∀ st : OkinCB24State,
      st.supports_memory_presets = true ∧ (0 : Int) < st.memory_slot_count) ∧
    (∀ st : JensenState,
      st.supports_memory_presets = true ∧ (0 : Int) < st.memory_slot_count) ∧
    (∀ (env : Env) (step : Nat) (st : OkinCB24State) (n : Int) (now : Int),
      ¬(1 ≤ n ∧ n ≤ st.memory_slot_count) →
      okinPresetMemory env step st n now = ([], step, none, st)) ∧
    (∀ (env : Env) (step : Nat) (n : Int),
      ¬(1 ≤ n ∧ n ≤ jensenInit.memory_slot_count) →
      jensenPresetMemory env step n = ([], step, none)) := by
  refine ⟨fun st => ⟨rfl, by norm_num [OkinCB24State.memory_slot_count]⟩,
    fun st => ⟨rfl, by norm_num [JensenState.memory_slot_count]⟩,
    fun env step st n now h => ?_, fun env step n h => ?_⟩
  · simp only [OkinCB24State.memory_slot_count] at h
    have e1 : ¬(n = 1) := by omega
    have e2 : ¬(n = 2) := by omega
    have e3 : ¬(n = 3) := by omega
    simp [okinPresetMemory, e1, e2, e3]
  · simp only [JensenState.memory_slot_count] at h
    have e1 : ¬(n = 1) := by omega
    simp [jensenPresetMemory, e1]

/-- C9 witness: slot 5 is outside both controllers' ranges and no-ops. -/
theorem c9_witness :
    ¬((1 : Int) ≤ 5 ∧ (5 : Int) ≤ (okinCB24Init 0x00 "cb24" false).memory_slot_count) ∧
    okinPresetMemory env0 0 (okinCB24Init 0x00 "cb24" false) 5 0 =
      ([], 0, none, okinCB24Init 0x00 "cb24" false) ∧
    ¬((1 : Int) ≤ 5 ∧ (5 : Int) ≤ jensenInit.memory_slot_count) ∧
    jensenPresetMemory env0 0 5 = ([], 0, none) :=
  ⟨by decide,
   c9_memory_presets_contract.2.2.1 env0 0 (okinCB24Init 0x00 "cb24" false) 5 0 (by decide),
   by decide,
   c9_memory_presets_contract.2.2.2 env0 0 5 (by decide)⟩

/-- The first of three consecutive same-preset calls on an adaptive-fallback
`cb24` controller, one second apart in a benign session. -/
def adaptivePresetCall1 : Trace × Nat × Option PyError × OkinCB24State :=
  okinSendPreset env0 0 (okinCB24Init 0x00 "cb24" true) OkinCB24Commands.PRESET_MEMORY_1 0

/-- The second same-preset call, continuing from the first. -/
def adaptivePresetCall2 : Trace × Nat × Option PyError × OkinCB24State :=
  okinSendPreset env0 adaptivePresetCall1.2.1 adaptivePresetCall1.2.2.2
    OkinCB24Commands.PRESET_MEMORY_1 1

/-- The third same-preset call, continuing from the second. -/
def adaptivePresetCall3 : Trace × Nat × Option PyError × OkinCB24State :=
  okinSendPreset env0 adaptivePresetCall2.2.1 adaptivePresetCall2.2.2.2
    OkinCB24Commands.PRESET_MEMORY_1 2

/-- C2: the code's actual adaptive-promotion behavior at the claim's input.
Two `_send_preset` calls for the same preset within the retry window leave
`_continuous_presets == False` and send the second call one-shot; only a
third call within the window promotes to continuous-hold. -/
theorem c2_code_behavior :
    Trace.writes adaptivePresetCall1.1 = [[0x05, 0x02, 0x00, 0x00, 0x20, 0x00, 0x00]] ∧
    Trace.writes adaptivePresetCall2.1 = [[0x05, 0x02, 0x00, 0x00, 0x20, 0x00, 0x00]] ∧
    adaptivePresetCall2.2.2.2.continuousPresets = false ∧
    adaptivePresetCall2.2.2.2.adaptivePresetFallback = true ∧
    (Trace.writes adaptivePresetCall3.1).length = 56 ∧
    (Trace.writes adaptivePresetCall3.1).getLast? =
      some [0x05, 0x02, 0x00, 0x00, 0x00, 0x00, 0x00] ∧
    adaptivePresetCall3.2.2.2.continuousPresets = true ∧
    adaptivePresetCall3.2.2.2.adaptivePresetFallback = false := by
  exact ⟨rfl, rfl, rfl, rfl, rfl, rfl, rfl, rfl⟩

/-- Under a connected transport, a movement method's last write attempt is
the STOP packet. -/
lemma okinMove_lastWrite (env : Env) (step : Nat) (st : OkinCB24State)
    (motor : String) (dir : MotorDirection) (h : ∀ s, env.connectedAt s = true) :
    (Trace.writes (okinMoveMotor env step st motor dir).1).getLast? =
      some (okinStopPacket st) := by
  rw [okinMoveMotor_eq env step st motor dir (h _)]
  simp [List.getLast?_concat]

/-- Under a connected transport, a Jensen movement method's last write
attempt is `MOTOR_STOP`. -/
lemma jensenMove_lastWrite (env : Env) (step : Nat) (cmd : Packet)
    (h : ∀ s, env.connectedAt s = true) :
    (Trace.writes (jensenMoveWithStop env step cmd).1).getLast? =
      some JensenCommands.MOTOR_STOP := by
  rw [jensenMoveWithStop_eq env step cmd (h _)]
  simp [List.getLast?_concat]

/-- C1 (amended): on a transport that stays connected, every motor movement
method of `OkinCB24Controller` and `JensenController` — including the
back/feet aliases — ends with a final write attempt equal to that family's
STOP packet, even when the movement write raises or is cancelled
mid-sequence.  (If the client is already disconnected when the cleanup write
begins, `write_command` raises its connection error before attempting any
write, so no STOP attempt occurs — see the counterexample.) -/
theorem c1_move_methods_end_with_stop (env : Env) (step : Nat)
    (st : OkinCB24State) (h : ∀ s, env.connectedAt s = true) :
    (∀ r ∈ [okinMoveHeadUp env step st, okinMoveHeadDown env step st,
        okinMoveBackUp env step st, okinMoveBackDown env step st,
        okinMoveLegsUp env step st, okinMoveLegsDown env step st,
        okinMoveFeetUp env step st, okinMoveFeetDown env step st],
      (Trace.writes r.1).getLast? = some (okinStopPacket st)) ∧
    (∀ r ∈ [jensenMoveHeadUp env step, jensenMoveHeadDown env step,
        jensenMoveBackUp env step, jensenMoveBackDown env step,
        jensenMoveLegsUp env step, jensenMoveLegsDown env step,
        jensenMoveFeetUp env step, jensenMoveFeetDown env step],
      (Trace.writes r.1).getLast? = some JensenCommands.MOTOR_STOP) := by
  constructor
  · intro r hr
    simp only [List.mem_cons, List.not_mem_nil, or_false] at hr
    rcases hr with h' | h' | h' | h' | h' | h' | h' | h' <;> subst h' <;>
      exact okinMove_lastWrite env step st _ _ h
  · intro r hr
    simp only [List.mem_cons, List.not_mem_nil, or_false] at hr
    rcases hr with h' | h' | h' | h' | h' | h' | h' | h' <;> subst h' <;>
      exact jensenMove_lastWrite env step _ h

/-- C1 witness: the benign session, from a fresh `cb24` controller. -/
theorem c1_witness :
    (∀ s, env0.connectedAt s = true) ∧
    ((∀ r ∈ [okinMoveHeadUp env0 0 (okinCB24Init 0x00 "cb24" false),
        okinMoveHeadDown env0 0 (okinCB24Init 0x00 "cb24" false),
        okinMoveBackUp env0 0 (okinCB24Init 0x00 "cb24" false),
        okinMoveBackDown env0 0 (okinCB24Init 0x00 "cb24" false),
        okinMoveLegsUp env0 0 (okinCB24Init 0x00 "cb24" false),
        okinMoveLegsDown env0 0 (okinCB24Init 0x00 "cb24" false),
        okinMoveFeetUp env0 0 (okinCB24Init 0x00 "cb24" false),
        okinMoveFeetDown env0 0 (okinCB24Init 0x00 "cb24" false)],
      (Trace.writes r.1).getLast? = some (okinStopPacket (okinCB24Init 0x00 "cb24" false))) ∧
    (∀ r ∈ [jensenMoveHeadUp env0 0, jensenMoveHeadDown env0 0,
        jensenMoveBackUp env0 0, jensenMoveBackDown env0 0,
        jensenMoveLegsUp env0 0, jensenMoveLegsDown env0 0,
        jensenMoveFeetUp env0 0, jensenMoveFeetDown env0 0],
      (Trace.writes r.1).getLast? = some JensenCommands.MOTOR_STOP)) :=
  ⟨fun _ => rfl,
   c1_move_methods_end_with_stop env0 0 (okinCB24Init 0x00 "cb24" false) (fun _ => rfl)⟩

/-- C1 counterexample: when the connection drops after the movement pulses
(attempt 10 on), `move_head_up` on the Jensen controller produces ten
successful movement writes and no STOP write at all — the cleanup
`write_command` raises its connection error before attempting the write —
so the last write is the movement packet, not the STOP packet. -/
theorem c1_counterexample :
    Trace.writes (jensenMoveHeadUp envDrop10 0).1 =
      List.replicate 10 JensenCommands.MOTOR_HEAD_UP ∧
    (Trace.writes (jensenMoveHeadUp envDrop10 0).1).getLast? =
      some JensenCommands.MOTOR_HEAD_UP ∧
    JensenCommands.MOTOR_HEAD_UP ≠ JensenCommands.MOTOR_STOP := by
  exact ⟨rfl, rfl, by decide⟩

/-- C5: `JensenController.write_command` raises `ConnectionError` before any
write when the client is missing or disconnected; with a connected client it
writes the packet `repeat_count` times with `repeat_delay_ms` sleeps between
consecutive writes; and it checks the effective cancel event before each
write, returning early without raising once the event is set. -/
theorem c5_jensen_write_command_contract (env : Env) (step : Nat) (pk : Packet)
    (n d : Nat) (fresh : Bool) :
    (env.connectedAt step = false →
      jensenWriteCommand env step pk n d fresh = ([], step, some .connectionError)) ∧
    ((∀ s, env.outcomeAt s = .ok) → (∀ s, env.cancelAt s = false) →
      env.connectedAt step = true →
      jensenWriteCommand env step pk n d fresh =
        (List.intersperse (Event.sleepMs d) (List.replicate n (Event.write pk)),
         step + n, none)) ∧
    ((∀ s, env.outcomeAt s = .ok) → env.connectedAt step = true →
      ∀ cOn, (∀ s, env.cancelAt s = decide (cOn ≤ s)) →
        Trace.writes (jensenWriteCommand env step pk n d false).1 =
          List.replicate (min n (cOn - step)) pk ∧
        (jensenWriteCommand env step pk n d false).2.2 = none) := by
  refine ⟨fun h => ?_, fun hOK hC h => ?_, fun hOK h cOn hC => ?_⟩
  · simp [jensenWriteCommand, h]
  · simp [jensenWriteCommand, h, writeRepeat_ok env pk (!fresh) d hOK hC]
  · simp only [jensenWriteCommand, h, Bool.true_eq_false, if_false, Bool.not_false]
    exact writeRepeat_cancelFrom env pk d cOn hOK hC n step

/-- C5 witness: cancellation turning on at absolute step 2 stops a 5-repeat
write after exactly two writes, without an error. -/
theorem c5_witness :
    (∀ s, envCancelFrom2.outcomeAt s = WriteOutcome.ok) ∧
    envCancelFrom2.connectedAt 0 = true ∧
    (∀ s, envCancelFrom2.cancelAt s = decide (2 ≤ s)) ∧
    Trace.writes (jensenWriteCommand envCancelFrom2 0 JensenCommands.MOTOR_HEAD_UP 5 100 false).1 =
      List.replicate (min 5 (2 - 0)) JensenCommands.MOTOR_HEAD_UP ∧
    (jensenWriteCommand envCancelFrom2 0 JensenCommands.MOTOR_HEAD_UP 5 100 false).2.2 = none := by
  have h := (c5_jensen_write_command_contract envCancelFrom2 0
    JensenCommands.MOTOR_HEAD_UP 5 100 false).2.2
    (fun _ => rfl) rfl 2 (fun _ => rfl)
  exact ⟨fun _ => rfl, rfl, fun _ => rfl, h.1, h.2⟩

/-- C6 (amended): under a connected transport, an Okin cleanup write that
fails with a BLE or connection error is swallowed — the method's error is the
primary phase's error — while a cancellation during cleanup is re-raised; on
the Jensen side only `BleakError` is swallowed: cancellation is re-raised and
a `ConnectionError` raised by the cleanup write propagates to the caller. -/
theorem c6_cleanup_error_policy (env : Env) (step : Nat) (st : OkinCB24State)
    (motor : String) (dir : MotorDirection) (pk cmd : Packet)
    (h : ∀ s, env.connectedAt s = true) :
    ((env.outcomeAt (okinMovePrimary env step st motor dir).2.2.1 ≠ .cancelled →
        (okinMoveMotor env step st motor dir).2.2.1 =
          (okinMovePrimary env step st motor dir).2.2.2) ∧
     (env.outcomeAt (okinMovePrimary env step st motor dir).2.2.1 = .cancelled →
        (okinMoveMotor env step st motor dir).2.2.1 = some .cancelledError)) ∧
    ((env.outcomeAt (okinPresetPrimary env step pk).2.1 ≠ .cancelled →
        (okinSendContinuousPreset env step st pk).2.2 =
          (okinPresetPrimary env step pk).2.2) ∧
     (env.outcomeAt (okinPresetPrimary env step pk).2.1 = .cancelled →
        (okinSendContinuousPreset env step st pk).2.2 = some .cancelledError)) ∧
    (((env.outcomeAt (jensenMovePrimary env step cmd).2.1 = .ok ∨
        env.outcomeAt (jensenMovePrimary env step cmd).2.1 = .bleak) →
        (jensenMoveWithStop env step cmd).2.2 = (jensenMovePrimary env step cmd).2.2) ∧
     (env.outcomeAt (jensenMovePrimary env step cmd).2.1 = .cancelled →
        (jensenMoveWithStop env step cmd).2.2 = some .cancelledError) ∧
     (env.outcomeAt (jensenMovePrimary env step cmd).2.1 = .conn →
        (jensenMoveWithStop env step cmd).2.2 = some .connectionError)) := by
  refine ⟨⟨fun hne => ?_, fun hc => ?_⟩, ⟨fun hne => ?_, fun hc => ?_⟩,
    ⟨fun ho => ?_, fun hc => ?_, fun hco => ?_⟩⟩
  · rw [okinMoveMotor_eq env step st motor dir (h _)]
    cases hx : env.outcomeAt (okinMovePrimary env step st motor dir).2.2.1 <;>
      simp [okinCleanupEscape, hx] at hne ⊢
  · rw [okinMoveMotor_eq env step st motor dir (h _)]
    simp [okinCleanupEscape, hc]
  · rw [okinSendContinuousPreset_eq env step st pk (h _)]
    cases hx : env.outcomeAt (okinPresetPrimary env step pk).2.1 <;>
      simp [okinCleanupEscape, hx] at hne ⊢
  · rw [okinSendContinuousPreset_eq env step st pk (h _)]
    simp [okinCleanupEscape, hc]
  · rw [jensenMoveWithStop_eq env step cmd (h _)]
    rcases ho with ho | ho <;> simp [jensenCleanupEscape, ho]
  · rw [jensenMoveWithStop_eq env step cmd (h _)]
    simp [jensenCleanupEscape, hc]
  · rw [jensenMoveWithStop_eq env step cmd (h _)]
    simp [jensenCleanupEscape, hco]

/-- C6 witness: the benign session; a successful cleanup leaves the primary
phase's (empty) error in place. -/
theorem c6_witness :
    (okinMoveMotor env0 0 (okinCB24Init 0x00 "cb24" false) "head" MotorDirection.up).2.2.1 =
      (okinMovePrimary env0 0 (okinCB24Init 0x00 "cb24" false) "head" MotorDirection.up).2.2.2 := by
  have h := c6_cleanup_error_policy env0 0 (okinCB24Init 0x00 "cb24" false)
    "head" MotorDirection.up [] [] (fun _ => rfl)
  exact h.1.1 (by decide)

/-- C6 counterexample: the connection drops after the ten movement writes;
the Jensen cleanup `write_command` raises `ConnectionError`, which is not
caught by the `except BleakError` clause and propagates out of
`_move_with_stop` even though the primary movement raised nothing. -/
theorem c6_counterexample :
    (jensenMoveWithStop envDrop10 0 JensenCommands.MOTOR_HEAD_UP).2.2 =
      some PyError.connectionError ∧
    (jensenMovePrimary envDrop10 0 JensenCommands.MOTOR_HEAD_UP).2.2 = none := by
  exact ⟨rfl, rfl⟩

/-- C10 (implicit): an unknown protocol-variant string falls back to
OLD-protocol handling — `_continuous_presets` is forced on and
`_adaptive_preset_fallback` off regardless of the constructor argument — so
every preset is streamed continuously (55 repeats) and followed by STOP. -/
theorem c10_unknown_variant_falls_back_to_old (bed : Nat) (variant : String)
    (adaptive : Bool) (h1 : variant ∉ LEGACY_PROTOCOL_VARIANTS)
    (h2 : variant ∉ NEW_PROTOCOL_VARIANTS) :
    (okinCB24Init bed variant adaptive).continuousPresets = true ∧
    (okinCB24Init bed variant adaptive).adaptivePresetFallback = false ∧
    ∀ (env : Env) (step : Nat) (v : Int) (now : Int) (pk : Packet),
      (∀ s, env.connectedAt s = true) → (∀ s, env.outcomeAt s = .ok) →
      (∀ s, env.cancelAt s = false) →
      (okinCB24Init bed variant adaptive).build_preset_command v = .ok pk →
      Trace.writes (okinSendPreset env step (okinCB24Init bed variant adaptive) v now).1 =
        List.replicate PRESET_CONTINUOUS_COUNT pk ++
          [okinStopPacket (okinCB24Init bed variant adaptive)] ∧
      (okinSendPreset env step (okinCB24Init bed variant adaptive) v now).2.2.1 = none := by
  have hL : LEGACY_PROTOCOL_VARIANTS.contains variant = false := by simpa using h1
  have hN : NEW_PROTOCOL_VARIANTS.contains variant = false := by simpa using h2
  have hCo : CONTINUOUS_PRESET_VARIANTS.contains variant = false := by
    have hne : variant ≠ "old" := by
      intro e
      exact h1 (by rw [e]; simp [LEGACY_PROTOCOL_VARIANTS])
    simpa [CONTINUOUS_PRESET_VARIANTS] using hne
  have hinit : okinCB24Init bed variant adaptive =
      { motorState := [], bedSelection := bed, protocolVariant := variant,
        isNewProtocol := false, continuousPresets := true,
        adaptivePresetFallback := false, lastOneShotPresetCommand := none,
        lastOneShotPresetMonotonic := 0, samePresetRetryCount := 0 } := by
    simp [okinCB24Init, h1, h2]
  refine ⟨by rw [hinit], by rw [hinit], ?_⟩
  intro env step v now pk hconn hOK hC hb
  rw [hinit] at hb ⊢
  have hsend : okinSendPreset env step
      { motorState := [], bedSelection := bed, protocolVariant := variant,
        isNewProtocol := false, continuousPresets := true,
        adaptivePresetFallback := false, lastOneShotPresetCommand := none,
        lastOneShotPresetMonotonic := 0, samePresetRetryCount := 0 } v now =
      (let r := okinSendContinuousPreset env step
        { motorState := [], bedSelection := bed, protocolVariant := variant,
          isNewProtocol := false, continuousPresets := true,
          adaptivePresetFallback := false, lastOneShotPresetCommand := none,
          lastOneShotPresetMonotonic := 0, samePresetRetryCount := 0 } pk
       (r.1, r.2.1, r.2.2,
        { motorState := [], bedSelection := bed, protocolVariant := variant,
          isNewProtocol := false, continuousPresets := true,
          adaptivePresetFallback := false, lastOneShotPresetCommand := none,
          lastOneShotPresetMonotonic := 0, samePresetRetryCount := 0 })) := by
    simp only [okinSendPreset, hb]
    simp
  rw [hsend]
  have hok := okinSendContinuousPreset_ok env step
    { motorState := [], bedSelection := bed, protocolVariant := variant,
      isNewProtocol := false, continuousPresets := true,
      adaptivePresetFallback := false, lastOneShotPresetCommand := none,
      lastOneShotPresetMonotonic := 0, samePresetRetryCount := 0 } pk hconn hOK hC
  exact ⟨hok.1, hok.2⟩

/-- C10 witness: the `bogus` variant with the adaptive flag requested. -/
theorem c10_witness :
    ("bogus" ∉ LEGACY_PROTOCOL_VARIANTS) ∧ ("bogus" ∉ NEW_PROTOCOL_VARIANTS) ∧
    (okinCB24Init 0x00 "bogus" true).continuousPresets = true ∧
    (okinCB24Init 0x00 "bogus" true).adaptivePresetFallback = false ∧
    ((∀ s, env0.connectedAt s = true) ∧ (∀ s, env0.outcomeAt s = .ok) ∧
      (∀ s, env0.cancelAt s = false)) ∧
    (Trace.writes (okinSendPreset env0 0 (okinCB24Init 0x00 "bogus" true)
        OkinCB24Commands.PRESET_FLAT 0).1 =
      List.replicate PRESET_CONTINUOUS_COUNT [0x05, 0x02, 0x08, 0x00, 0x00, 0x00, 0x00] ++
        [okinStopPacket (okinCB24Init 0x00 "bogus" true)] ∧
     (okinSendPreset env0 0 (okinCB24Init 0x00 "bogus" true)
        OkinCB24Commands.PRESET_FLAT 0).2.2.1 = none) := by
  have h := c10_unknown_variant_falls_back_to_old 0x00 "bogus" true (by decide) (by decide)
  exact ⟨by decide, by decide, h.1, h.2.1,
    ⟨fun _ => rfl, fun _ => rfl, fun _ => rfl⟩,
    h.2.2 env0 0 OkinCB24Commands.PRESET_FLAT 0
      [0x05, 0x02, 0x08, 0x00, 0x00, 0x00, 0x00] (fun _ => rfl) (fun _ => rfl)
      (fun _ => rfl) rfl⟩

/-- C7 witness: an empty motor-state machine combines to 0, and a concrete
move leaves the controller's motor-state mapping empty. -/
theorem c7_witness :
    (∀ k, okinActiveDirection ⟨[]⟩ k = none) ∧
    (OkinMotorStateMachine.mk []).get_combined_command = 0 ∧
    ((okinMoveMotor env0 0 (okinCB24Init 0x00 "cb24" false) "head"
        MotorDirection.up).2.2.2).motorState = [] :=
  ⟨fun k => rfl,
   c7_combined_command_or_and_state_cleared.2.1 ⟨[]⟩ (fun k => rfl),
   c7_combined_command_or_and_state_cleared.2.2.2 env0 0
     (okinCB24Init 0x00 "cb24" false) "head" MotorDirection.up⟩

end AdjustableBed
